import Mathlib

/-!
Verification development for the inspection-checklist frontend.

The definitions below are shallow embeddings of the TypeScript sources:
records become structures with the source field names, `undefined`/`null`
fields become `Option`, JS `Map` lookup becomes a last-wins association
lookup, and the guard / filter / derivation functions are translated
branch by branch.  All definitions are executable, so theorems with
hypotheses come with concrete witnesses evaluated by `decide`.
-/

/-- Schema `components['schemas']['TemplateItemRead']`: checklist item of a template
section.  `requires_evidence_on_fail` is optional in the generated schema. -/
structure TemplateItem where
  id : String
  is_required : Bool
  requires_evidence_on_fail : Option Bool
deriving DecidableEq, Repr

/-- A template section; `items` is nullable in the schema (`section.items ?? []`). -/
structure TemplateSection where
  items : Option (List TemplateItem)
deriving DecidableEq, Repr

/-- Schema `ChecklistTemplateRead`; `sections` is nullable (`template.sections?`). -/
structure TemplateRead where
  sections : Option (List TemplateSection)
deriving DecidableEq, Repr

/-- Schema `InspectionResponseRead`: one inspector answer for a template item.
A `null` `media_urls` behaves exactly like `[]` in every use site
(`(response.media_urls?.length ?? 0) > 0`), so it is modelled as a list. -/
structure InspectionResponse where
  id : String
  template_item_id : String
  result : Option String
  media_urls : List String
deriving DecidableEq, Repr

/-- Schema `CorrectiveActionRead`: remediation record attached to a failing response. -/
structure CorrectiveAction where
  id : Nat
  response_id : String
  severity : String
  status : String
  due_date : Option Int
  work_order_required : Bool
  work_order_number : Option String
  media_urls : List String
  closed_at : Option Int
  closed_by : Option String
  resolution_notes : Option String
deriving DecidableEq, Repr

/-- Schema `RejectionEntryRead`: one reviewer send-back record for a template item. -/
structure RejectionEntry where
  template_item_id : Option String
  resolved_at : Option String
deriving DecidableEq, Repr

/-- Result record of the submission guard. -/
structure SubmitGuardResult where
  missingRequiredItems : List TemplateItem
  failingResponses : List InspectionResponse
deriving DecidableEq, Repr

/-- JS truthiness of an optional string: `undefined`, `null` and `""` are falsy. -/
def strTruthy : Option String → Bool
  | none => false
  | some s => !(s == "")

/-- Lookup `new Map(l.map (x => [key x, x])).get k`: the **last** entry wins on
duplicate keys, hence `find?` on the reversed list. -/
def jsMapGet {α : Type} (key : α → String) (l : List α) (k : String) : Option α :=
  l.reverse.find? fun x => key x == k

namespace InspectionSubmitState

/-- Flattening `template.sections?.flatMap((section) => section.items ?? []) ?? []`. -/
def flattenItems (template : TemplateRead) : List TemplateItem :=
  match template.sections with
  | none => []
  | some sections => sections.flatMap fun sec => sec.items.getD []

/-- Predicate of the `failingResponses` filter of the evidence-aware guard
(`inspectionSubmitState.ts`), translated branch by branch. -/
def failingPred (templateItems : List TemplateItem) (actions : List CorrectiveAction)
    (response : InspectionResponse) : Bool :=
  if response.result ≠ some "fail" then false
  else
    let templateItem := jsMapGet (fun item => item.id) templateItems response.template_item_id
    -- `templateItem?.requires_evidence_on_fail !== false`
    if (templateItem.bind fun item => item.requires_evidence_on_fail) = some false then false
    else
      let relatedActions := actions.filter fun action => action.response_id == response.id
      if relatedActions = [] then true
      else
        let responseHasMedia := decide (0 < response.media_urls.length)
        let actionHasMedia := relatedActions.any fun action => decide (0 < action.media_urls.length)
        !(responseHasMedia || actionHasMedia)

/-- The current, evidence-aware submission guard
(`pages/Inspections/inspectionSubmitState.ts`). -/
def evaluateInspectionSubmitState (template : TemplateRead)
    (responses : List InspectionResponse) (actions : List CorrectiveAction) :
    SubmitGuardResult :=
  let templateItems := flattenItems template
  let requiredItems := templateItems.filter fun item => item.is_required
  let missingRequiredItems := requiredItems.filter fun item =>
    !(strTruthy ((jsMapGet (fun r => r.template_item_id) responses item.id).bind fun r => r.result))
  let failingResponses := responses.filter (failingPred templateItems actions)
  { missingRequiredItems := missingRequiredItems, failingResponses := failingResponses }

end InspectionSubmitState

namespace InspectionEdit

/-- The legacy submission guard exported from `InspectionEdit.tsx`: identical
`missingRequiredItems` computation, but `failingResponses` only asks for the
existence of a matching corrective action and ignores evidence entirely. -/
def evaluateInspectionSubmitState (template : TemplateRead)
    (responses : List InspectionResponse) (actions : List CorrectiveAction) :
    SubmitGuardResult :=
  let requiredItems : List TemplateItem :=
    match template.sections with
    | none => []
    | some sections =>
        (sections.flatMap fun sec => sec.items.getD []).filter fun item => item.is_required
  let missingRequiredItems := requiredItems.filter fun item =>
    !(strTruthy ((jsMapGet (fun r => r.template_item_id) responses item.id).bind fun r => r.result))
  let failingResponses := responses.filter fun response =>
    if response.result ≠ some "fail" then false
    else !(actions.any fun action => action.response_id == response.id)
  { missingRequiredItems := missingRequiredItems, failingResponses := failingResponses }

/-- State `submitState` of the legacy editor: empty guard result while the template
has not loaded, otherwise the legacy guard. -/
def submitState (template : Option TemplateRead)
    (responses : List InspectionResponse) (actions : List CorrectiveAction) :
    SubmitGuardResult :=
  match template with
  | none => { missingRequiredItems := [], failingResponses := [] }
  | some t => evaluateInspectionSubmitState t responses actions

/-- Gate `canSubmit` of the legacy editor: status must be exactly `'draft'`. -/
def canSubmit (status : Option String) (template : Option TemplateRead)
    (responses : List InspectionResponse) (actions : List CorrectiveAction) : Bool :=
  status == some "draft"
    && (submitState template responses actions).missingRequiredItems.length == 0
    && (submitState template responses actions).failingResponses.length == 0

end InspectionEdit

/-- ASCII lowercasing, the kernel-reducible counterpart of
`String.prototype.toLowerCase` for the severity keywords involved here. -/
def lowercase (s : String) : String :=
  ⟨s.data.map Char.toLower⟩

namespace InspectionWorkspace

/-- State `submitState` of the current inspection workspace (second component in the
same source chunk as `InspectionEdit`): empty while the template has not
loaded, otherwise the evidence-aware guard. -/
def submitState (template : Option TemplateRead)
    (responses : List InspectionResponse) (actions : List CorrectiveAction) :
    SubmitGuardResult :=
  match template with
  | none => { missingRequiredItems := [], failingResponses := [] }
  | some t => InspectionSubmitState.evaluateInspectionSubmitState t responses actions

/-- Gate `canSubmit` of the current workspace: `'draft'` or `'rejected'` plus an
empty guard result. -/
def canSubmit (status : Option String) (template : Option TemplateRead)
    (responses : List InspectionResponse) (actions : List CorrectiveAction) : Bool :=
  (status == some "draft" || status == some "rejected")
    && (submitState template responses actions).missingRequiredItems.length == 0
    && (submitState template responses actions).failingResponses.length == 0

/-- Projection `entries.map(e => e.template_item_id).filter(Boolean)`: keep the truthy ids. -/
def truthyIds (ids : List (Option String)) : List String :=
  ids.filterMap fun o =>
    match o with
    | none => none
    | some s => if s = "" then none else some s

/-- Set `rejectedItems`: when the inspection is `'rejected'`, the ids named by
rejection entries whose `resolved_at` is not set; otherwise the empty set.
The JS value is a `Set`; membership and emptiness are all that is consumed,
so a duplicate-preserving list keeps the same observable behaviour. -/
def rejectedItems (status : Option String) (rejection_entries : Option (List RejectionEntry)) :
    List String :=
  if status ≠ some "rejected" then []
  else
    truthyIds
      (((rejection_entries.getD []).filter fun entry => !(strTruthy entry.resolved_at)).map
        fun entry => entry.template_item_id)

/-- Flag `isRework = inspection?.status === 'rejected' && rejectedItems.size > 0`. -/
def isRework (status : Option String) (rejection_entries : Option (List RejectionEntry)) : Bool :=
  status == some "rejected" && decide (0 < (rejectedItems status rejection_entries).length)

/-- Flag `isEditable = !isRework || rejectedItems.has(item.id)`. -/
def isEditable (status : Option String) (rejection_entries : Option (List RejectionEntry))
    (itemId : String) : Bool :=
  !(isRework status rejection_entries) || (rejectedItems status rejection_entries).contains itemId

/-- The inner `score` helper of `deriveRiskLevel`. -/
def score (value : String) : Nat :=
  if value = "high" then 3
  else if value = "medium" then 2
  else if value = "low" then 1
  else 0

/-- Derivation `deriveRiskLevel`: lowercase both inputs, keep the positive scores, default
to `'medium'` when none remain, otherwise threshold the mean.  The JS code
compares the float `total / count` with `2.5` and `1.5`; with `count ∈ {1, 2}`
and `total ≤ 6` the float arithmetic is exact, so the comparisons are embedded
as the exact cross-multiplied forms `2 * total ≥ 5 * count` and
`2 * total ≥ 3 * count`. -/
def deriveRiskLevel (occurrence injury : String) : String :=
  let occ := lowercase occurrence
  let inj := lowercase injury
  let scores := [score occ, score inj].filter fun s => decide (0 < s)
  if scores.length = 0 then "medium"
  else
    let total := scores.foldl (· + ·) 0
    if 5 * scores.length ≤ 2 * total then "high"
    else if 3 * scores.length ≤ 2 * total then "medium"
    else "low"

end InspectionWorkspace

/-- Severity derivation as worded by the specification: map
`'low'/'medium'/'high'` to `1/2/3`, average only the inputs that map to a
valid score, default to `'medium'` when no input is valid, and compare the
mean against `2.5` and `1.5` (again in exact cross-multiplied form). -/
def severityScoreSpec (value : String) : Option Nat :=
  if value = "low" then some 1
  else if value = "medium" then some 2
  else if value = "high" then some 3
  else none

/-- Spec-worded severity derivation, to be compared with
`InspectionWorkspace.deriveRiskLevel`. -/
def deriveRiskLevelSpec (occurrenceSeverity injurySeverity : String) : String :=
  let valid := [severityScoreSpec occurrenceSeverity, severityScoreSpec injurySeverity].filterMap id
  if valid.length = 0 then "medium"
  else
    let total := valid.foldl (· + ·) 0
    if 5 * valid.length ≤ 2 * total then "high"
    else if 3 * valid.length ≤ 2 * total then "medium"
    else "low"

namespace ReviewQueue

/-- Payload of `reject.mutateAsync` as assembled by `handleReject`. -/
structure RejectPayload where
  reason : String
  follow_up_instructions : Option String
  item_ids : List String
deriving DecidableEq, Repr

/-- Embedding of `String.prototype.trim`, kernel-reducible: drop whitespace at both ends. -/
def jsTrim (s : String) : String :=
  ⟨((s.data.dropWhile Char.isWhitespace).reverse.dropWhile Char.isWhitespace).reverse⟩

/-- Set `failingItemIds`: ids of template items whose response result is `'fail'`.
The JS value is a `Set`; a list with the same members is kept. -/
def failingItemIds (responses : List InspectionResponse) : List String :=
  (responses.filter fun response => response.result == some "fail").map
    fun response => response.template_item_id

/-- List `allTemplateItems`: every template item id is offered as a checkbox in the
reject dialog, failing or not. -/
def allTemplateItems (template : Option TemplateRead) : List String :=
  match template with
  | none => []
  | some t =>
      (t.sections.getD []).flatMap fun sec => (sec.items.getD []).map fun item => item.id

/-- One checkbox toggle of the reject dialog: `Set.add` / `Set.delete` on the
current selection. -/
def toggleItem (checked : Bool) (itemId : String) (current : List String) : List String :=
  if checked then (if current.contains itemId then current else current ++ [itemId])
  else current.filter fun x => !(x == itemId)

/-- Handler `handleReject`: dispatch the reject mutation only when the trimmed reason
is non-empty and at least one item is selected; the selected ids are sent
verbatim (`Array.from(selectedItems)`), with no filtering against the failing
set. -/
def handleReject (reason followUp : String) (selectedItems : List String) :
    Option RejectPayload :=
  let trimmedReason := jsTrim reason
  let trimmedFollowUp := jsTrim followUp
  if trimmedReason = "" then none
  else if selectedItems.length = 0 then none
  else
    some { reason := trimmedReason,
           follow_up_instructions := if trimmedFollowUp = "" then none else some trimmedFollowUp,
           item_ids := selectedItems }

end ReviewQueue

namespace ActionsSearch

/-- Display helper `getActionDisplayStatus`: the UI collapses `'in_progress'` into `'open'`. -/
def getActionDisplayStatus (status : String) : String :=
  if status = "in_progress" then "open" else status

/-- Filter `withinDueWindow` of the actions search page.  `now` is the current time
and due dates are opaque timestamps, both in milliseconds. -/
def withinDueWindow (dueFilter : String) (now : Int) (action : CorrectiveAction) : Bool :=
  if dueFilter = "all" then true
  else
    match action.due_date with
    | none => false
    | some due =>
        if dueFilter = "overdue" then decide (due < now)
        else if dueFilter = "upcoming" then
          decide (0 ≤ due - now) && decide (due - now ≤ 7 * 24 * 60 * 60 * 1000)
        else true

end ActionsSearch

namespace DashboardActions

/-- Filter predicate of `filteredActions` on the dashboard actions page,
translated return by return. -/
def filterPred (severity dueFilter : String) (now : Int) (action : CorrectiveAction) : Bool :=
  if severity ≠ "all" ∧ action.severity ≠ severity then false
  else if dueFilter = "overdue" ∧ action.due_date = none then false
  else if dueFilter = "overdue" then
    match action.due_date with
    | none => false
    | some due => decide (due < now)
  else if dueFilter = "upcoming" ∧ action.due_date ≠ none then
    match action.due_date with
    | none => true
    | some due => decide (0 ≤ due - now) && decide (due - now ≤ 7 * 24 * 60 * 60 * 1000)
  else true

end DashboardActions

namespace ActionsService

/-- Typed failures of the corrective-action close operation. -/
inductive CloseError where
  | PreconditionFailed
  | InvalidState
deriving DecidableEq, Repr

/-- True when `workOrderNumber` is empty: unset or the empty string. -/
def workOrderNumberEmpty (action : CorrectiveAction) : Bool :=
  match action.work_order_number with
  | none => true
  | some s => s == ""

/-- Modelled from the spec: the backend close operation
(`app/services/actions.py` of this repository, which is not under the
frontend sources available here).  Per §4.2, `close(actionId, resolutionNotes)`
transitions `status -> closed` and records `closedAt`/`closedBy`; it fails
with `PreconditionFailed` if `workOrderRequired == true` and `workOrderNumber`
is empty, and with `InvalidState` if the action is already closed. -/
def close (now : Int) (closedBy : String) (resolutionNotes : String)
    (action : CorrectiveAction) : Except CloseError CorrectiveAction :=
  if action.status = "closed" then .error .InvalidState
  else if action.work_order_required && workOrderNumberEmpty action then
    .error .PreconditionFailed
  else
    .ok { action with
          status := "closed",
          closed_at := some now,
          closed_by := some closedBy,
          resolution_notes := some resolutionNotes }

end ActionsService

theorem jsMapGet_eq_none_iff {α : Type} (key : α → String) (l : List α) (k : String) :
    jsMapGet key l k = none ↔ ∀ x ∈ l, key x ≠ k := by
  unfold jsMapGet
  rw [List.find?_eq_none]
  constructor
  · intro h x hx
    have := h x (List.mem_reverse.mpr hx)
    simpa using this
  · intro h x hx
    simpa using h x (List.mem_reverse.mp hx)

/-- Claim C1 (guard completeness): if every required template item has a
response with a non-empty result, and every `fail` response is either
evidence-exempt (`requires_evidence_on_fail == false` on its item) or has a
matching corrective action together with evidence on the response or on some
matching action, then the evidence-aware guard returns two empty lists. -/
theorem evaluateInspectionSubmitState_complete (t : TemplateRead)
    (rs : List InspectionResponse) (as : List CorrectiveAction)
    (hreq : ∀ item ∈ InspectionSubmitState.flattenItems t, item.is_required = true →
      strTruthy ((jsMapGet (fun r => r.template_item_id) rs item.id).bind fun r => r.result) = true)
    (hfail : ∀ r ∈ rs, r.result = some "fail" →
      ((jsMapGet (fun item => item.id) (InspectionSubmitState.flattenItems t)
          r.template_item_id).bind fun item => item.requires_evidence_on_fail) = some false
      ∨ ((as.filter fun a => a.response_id == r.id) ≠ [] ∧
         (r.media_urls ≠ [] ∨ ∃ a ∈ as.filter fun a => a.response_id == r.id, a.media_urls ≠ []))) :
    InspectionSubmitState.evaluateInspectionSubmitState t rs as =
      { missingRequiredItems := [], failingResponses := [] } := by
  unfold InspectionSubmitState.evaluateInspectionSubmitState
  refine congrArg₂ SubmitGuardResult.mk ?_ ?_
  · refine List.filter_eq_nil_iff.mpr ?_
    intro item hitem
    rcases List.mem_filter.mp hitem with ⟨hmem, hrequired⟩
    have := hreq item hmem hrequired
    simp [this]
  · refine List.filter_eq_nil_iff.mpr ?_
    intro r hr
    unfold InspectionSubmitState.failingPred
    by_cases hres : r.result = some "fail"
    · rcases hfail r hr hres with hexempt | ⟨hacts, hmedia⟩
      · simp [hres, hexempt]
      · have hmedia' :
            (decide (0 < r.media_urls.length)
              || (as.filter fun a => a.response_id == r.id).any
                    fun action => decide (0 < action.media_urls.length)) = true := by
          rcases hmedia with hrm | ⟨a, ha, ham⟩
          · simp [List.length_pos.mpr hrm]
          · refine Bool.or_eq_true_iff.mpr (Or.inr ?_)
            exact List.any_eq_true.mpr ⟨a, ha, by simp [List.length_pos.mpr ham]⟩
        simp only [hres]
        simp only [hacts, hmedia']
        simp
    · simp [hres]

/-- Template used by the concrete guard scenarios: one section with a required
evidence-on-fail item `item-1` and an optional evidence-on-fail item `item-2`. -/
def sampleTemplate : TemplateRead :=
  { sections := some [{ items := some [
      { id := "item-1", is_required := true, requires_evidence_on_fail := some true },
      { id := "item-2", is_required := false, requires_evidence_on_fail := some true }] }] }

/-- Responses for the completeness witness: `item-1` passes, `item-2` fails
with evidence attached to the response. -/
def sampleResponses : List InspectionResponse :=
  [{ id := "resp-1", template_item_id := "item-1", result := some "pass", media_urls := [] },
   { id := "resp-2", template_item_id := "item-2", result := some "fail",
     media_urls := ["photo.png"] }]

/-- A corrective action attached to the failing response `resp-2`. -/
def sampleAction : CorrectiveAction :=
  { id := 1, response_id := "resp-2", severity := "high", status := "open",
    due_date := none, work_order_required := false, work_order_number := none,
    media_urls := [], closed_at := none, closed_by := none, resolution_notes := none }

/-- Witness for claim C1: the completeness theorem applied to the concrete
scenario above yields an empty guard result. -/
theorem evaluateInspectionSubmitState_complete_witness :
    InspectionSubmitState.evaluateInspectionSubmitState sampleTemplate sampleResponses
      [sampleAction] = { missingRequiredItems := [], failingResponses := [] } :=
  evaluateInspectionSubmitState_complete sampleTemplate sampleResponses [sampleAction]
    (by decide) (by decide)

/-- Claim C2 (guard evidence rule, soundness direction included): a `fail`
response whose template item sets `requires_evidence_on_fail == true` and
which has at least one matching corrective action is reported in
`failingResponses` iff the response carries no evidence and no matching
action carries evidence. -/
theorem failingResponses_evidence_iff (t : TemplateRead) (rs : List InspectionResponse)
    (as : List CorrectiveAction) (r : InspectionResponse) (item : TemplateItem)
    (hr : r ∈ rs)
    (hres : r.result = some "fail")
    (hitem : jsMapGet (fun i => i.id) (InspectionSubmitState.flattenItems t)
      r.template_item_id = some item)
    (hreq : item.requires_evidence_on_fail = some true)
    (hacts : (as.filter fun a => a.response_id == r.id) ≠ []) :
    r ∈ (InspectionSubmitState.evaluateInspectionSubmitState t rs as).failingResponses ↔
      (r.media_urls = [] ∧ ∀ a ∈ as, a.response_id = r.id → a.media_urls = []) := by
  have hproj : (InspectionSubmitState.evaluateInspectionSubmitState t rs as).failingResponses
      = rs.filter (InspectionSubmitState.failingPred (InspectionSubmitState.flattenItems t) as) :=
    rfl
  rw [hproj, List.mem_filter]
  unfold InspectionSubmitState.failingPred
  simp only [hres, hitem, hreq, hacts]
  simp [hr, List.any_eq_true, List.mem_filter, List.length_eq_zero, Nat.pos_iff_ne_zero]
  intro _ _
  simp [hreq]

/-- The failing response of the soundness scenario once the sole evidence
reference has been removed from it. -/
def strippedResponse : InspectionResponse :=
  { id := "resp-2", template_item_id := "item-2", result := some "fail", media_urls := [] }

/-- Witness for claim C2: with the evidence removed from both the response and
its only action, the evidence iff applied at the concrete scenario puts the
response back into `failingResponses`. -/
theorem failingResponses_evidence_iff_witness :
    strippedResponse ∈
      (InspectionSubmitState.evaluateInspectionSubmitState sampleTemplate [strippedResponse]
        [sampleAction]).failingResponses :=
  (failingResponses_evidence_iff sampleTemplate [strippedResponse] [sampleAction]
      strippedResponse
      { id := "item-2", is_required := false, requires_evidence_on_fail := some true }
      (by decide) (by decide) (by decide) (by decide) (by decide)).mpr (by decide)

/-- Claim C10: the legacy guard of `InspectionEdit.tsx` and the evidence-aware
guard of `inspectionSubmitState.ts` compute exactly the same
`missingRequiredItems` list — the required items of the flattened template
whose response is absent or has an empty result, in template order. -/
theorem missingRequiredItems_agree (t : TemplateRead) (rs : List InspectionResponse)
    (as : List CorrectiveAction) :
    (InspectionSubmitState.evaluateInspectionSubmitState t rs as).missingRequiredItems =
        (InspectionEdit.evaluateInspectionSubmitState t rs as).missingRequiredItems ∧
      (InspectionSubmitState.evaluateInspectionSubmitState t rs as).missingRequiredItems =
        (InspectionSubmitState.flattenItems t).filter fun item =>
          item.is_required &&
            !(strTruthy ((jsMapGet (fun r => r.template_item_id) rs item.id).bind
                fun r => r.result)) := by
  constructor
  · show ((InspectionSubmitState.flattenItems t).filter fun item => item.is_required).filter _ = _
    unfold InspectionSubmitState.flattenItems InspectionEdit.evaluateInspectionSubmitState
    cases t.sections <;> rfl
  · show ((InspectionSubmitState.flattenItems t).filter fun item => item.is_required).filter _ = _
    rw [List.filter_filter]
    exact List.filter_congr fun item _ => Bool.and_comm _ _

theorem jsMapGet_middle {α : Type} (key : α → String) (l₁ l₂ : List α) (x : α) (k : String)
    (hx : key x ≠ k) : jsMapGet key (l₁ ++ x :: l₂) k = jsMapGet key (l₁ ++ l₂) k := by
  have hpx : (key x == k) = false := by simpa using hx
  unfold jsMapGet
  simp [List.find?_append, List.find?_cons, hpx]

/-- A `fail` response whose `template_item_id` matches no template item. -/
def orphanResponse : InspectionResponse :=
  { id := "resp-9", template_item_id := "ghost", result := some "fail", media_urls := [] }

/-- Counterexample to claim C8: an orphaned `fail` response without evidence
or actions is **not** ignored by the guard — it lands in `failingResponses`
(`templateItem?.requires_evidence_on_fail !== false` holds when the template
item is missing). -/
theorem orphanResponse_blocks :
    orphanResponse ∈
      (InspectionSubmitState.evaluateInspectionSubmitState sampleTemplate [orphanResponse]
        []).failingResponses := by
  decide

/-- Claim C8 as amended: an orphaned response never affects
`missingRequiredItems`, and a non-`fail` orphaned response never appears in
`failingResponses`; but an orphaned `fail` response is treated as
evidence-required, so it appears in `failingResponses` exactly when it has no
matching action, or no evidence on the response and on every matching action. -/
theorem orphanResponse_guard_behaviour (t : TemplateRead) (l₁ l₂ : List InspectionResponse)
    (as : List CorrectiveAction) (r : InspectionResponse)
    (horphan : jsMapGet (fun i => i.id) (InspectionSubmitState.flattenItems t)
      r.template_item_id = none) :
    ((InspectionSubmitState.evaluateInspectionSubmitState t (l₁ ++ r :: l₂) as).missingRequiredItems
        = (InspectionSubmitState.evaluateInspectionSubmitState t (l₁ ++ l₂) as).missingRequiredItems)
    ∧ (r ∈ (InspectionSubmitState.evaluateInspectionSubmitState t (l₁ ++ r :: l₂)
          as).failingResponses ↔
        r.result = some "fail" ∧
          ((as.filter fun a => a.response_id == r.id) = [] ∨
            (r.media_urls = [] ∧ ∀ a ∈ as, a.response_id = r.id → a.media_urls = []))) := by
  have hids : ∀ item ∈ InspectionSubmitState.flattenItems t, r.template_item_id ≠ item.id := by
    intro item hitem heq
    exact (jsMapGet_eq_none_iff _ _ _).mp horphan item hitem heq.symm
  constructor
  · show List.filter _ _ = List.filter _ _
    refine List.filter_congr ?_
    intro item hitem
    rcases List.mem_filter.mp hitem with ⟨hmem, _⟩
    rw [jsMapGet_middle (fun resp => resp.template_item_id) l₁ l₂ r item.id
      (hids item hmem)]
  · have hproj : (InspectionSubmitState.evaluateInspectionSubmitState t (l₁ ++ r :: l₂)
        as).failingResponses
        = (l₁ ++ r :: l₂).filter
            (InspectionSubmitState.failingPred (InspectionSubmitState.flattenItems t) as) := rfl
    rw [hproj, List.mem_filter]
    have hrmem : r ∈ l₁ ++ r :: l₂ := List.mem_append.mpr (Or.inr (List.mem_cons_self r l₂))
    unfold InspectionSubmitState.failingPred
    simp only [horphan]
    by_cases hres : r.result = some "fail"
    · by_cases hacts : (as.filter fun a => a.response_id == r.id) = []
      · simp [hrmem, hres, hacts]
      · simp [hrmem, hres, hacts, List.any_eq_true, List.mem_filter,
          List.length_eq_zero, Nat.pos_iff_ne_zero]
    · simp [hres]

/-- Witness for the amended claim C8, applied at the concrete orphan scenario:
removing the orphan leaves `missingRequiredItems` unchanged, and the orphaned
`fail` response without actions sits in `failingResponses`. -/
theorem orphanResponse_guard_behaviour_witness :
    (InspectionSubmitState.evaluateInspectionSubmitState sampleTemplate
        ([] ++ orphanResponse :: []) []).missingRequiredItems
      = (InspectionSubmitState.evaluateInspectionSubmitState sampleTemplate
          ([] ++ []) []).missingRequiredItems
    ∧ orphanResponse ∈ (InspectionSubmitState.evaluateInspectionSubmitState sampleTemplate
        ([] ++ orphanResponse :: []) []).failingResponses :=
  ⟨(orphanResponse_guard_behaviour sampleTemplate [] [] [] orphanResponse (by decide)).1,
   (orphanResponse_guard_behaviour sampleTemplate [] [] [] orphanResponse (by decide)).2.mpr
     (by decide)⟩

/-- Counterexample to claim C3: on a rejected inspection whose unresolved
rejection-entry set is empty, `item-3` is **editable** even though it is not
in the unresolved set — the claimed equivalence fails. -/
theorem isEditable_empty_set_counterexample :
    ¬ (InspectionWorkspace.isEditable (some "rejected") (some []) "item-3" = true ↔
        "item-3" ∈ InspectionWorkspace.rejectedItems (some "rejected") (some [])) := by
  decide

/-- Claim C3 as amended: on a rejected inspection, **provided the unresolved
rejection set is non-empty**, an item is editable iff its id is in that set;
when the unresolved set is empty, rework narrowing is off and every item is
editable. -/
theorem isEditable_iff_rejected (entries : Option (List RejectionEntry)) (itemId : String) :
    (InspectionWorkspace.rejectedItems (some "rejected") entries ≠ [] →
      (InspectionWorkspace.isEditable (some "rejected") entries itemId = true ↔
        itemId ∈ InspectionWorkspace.rejectedItems (some "rejected") entries))
    ∧ (InspectionWorkspace.rejectedItems (some "rejected") entries = [] →
      InspectionWorkspace.isEditable (some "rejected") entries itemId = true) := by
  constructor
  · intro hne
    unfold InspectionWorkspace.isEditable InspectionWorkspace.isRework
    have hlen : decide (0 < (InspectionWorkspace.rejectedItems (some "rejected") entries).length)
        = true := by
      simp [Nat.pos_iff_ne_zero, List.length_eq_zero, hne]
    simp [hlen, List.elem_iff]
  · intro hempty
    unfold InspectionWorkspace.isEditable InspectionWorkspace.isRework
    simp [hempty]

/-- Witness for the amended claim C3: with one unresolved entry for `item-7`,
`item-7` is editable and `item-3` is not. -/
theorem isEditable_iff_rejected_witness :
    InspectionWorkspace.isEditable (some "rejected")
        (some [{ template_item_id := some "item-7", resolved_at := none }]) "item-7" = true
    ∧ ¬ InspectionWorkspace.isEditable (some "rejected")
        (some [{ template_item_id := some "item-7", resolved_at := none }]) "item-3" = true :=
  ⟨((isEditable_iff_rejected
      (some [{ template_item_id := some "item-7", resolved_at := none }]) "item-7").1
      (by decide)).mpr (by decide),
   fun h =>
     absurd (((isEditable_iff_rejected
       (some [{ template_item_id := some "item-7", resolved_at := none }]) "item-3").1
       (by decide)).mp h) (by decide)⟩

/-- Counterexample to claim C4: a rejected inspection whose guard lists are
both empty cannot be submitted from the legacy editor — its `canSubmit`
requires status `'draft'` only, so the claimed equivalence fails there. -/
theorem canSubmit_rejected_counterexample :
    ¬ (InspectionEdit.canSubmit (some "rejected") (some sampleTemplate) sampleResponses
          [sampleAction] = true ↔
        ((some "rejected" = some "draft" ∨ (some "rejected" : Option String) = some "rejected")
          ∧ (InspectionEdit.submitState (some sampleTemplate) sampleResponses
              [sampleAction]).missingRequiredItems = []
          ∧ (InspectionEdit.submitState (some sampleTemplate) sampleResponses
              [sampleAction]).failingResponses = [])) := by
  decide

/-- Claim C4 as amended: in the current inspection workspace, submit is
enabled iff the status is `'draft'` or `'rejected'` and both guard lists are
empty; in the legacy editor, submit is enabled iff the status is `'draft'`
(rejected inspections cannot be submitted from it) and both of its guard
lists are empty. -/
theorem canSubmit_characterisation (status : Option String) (template : Option TemplateRead)
    (responses : List InspectionResponse) (actions : List CorrectiveAction) :
    (InspectionWorkspace.canSubmit status template responses actions = true ↔
      ((status = some "draft" ∨ status = some "rejected")
        ∧ (InspectionWorkspace.submitState template responses actions).missingRequiredItems = []
        ∧ (InspectionWorkspace.submitState template responses actions).failingResponses = []))
    ∧ (InspectionEdit.canSubmit status template responses actions = true ↔
      (status = some "draft"
        ∧ (InspectionEdit.submitState template responses actions).missingRequiredItems = []
        ∧ (InspectionEdit.submitState template responses actions).failingResponses = [])) := by
  constructor
  · unfold InspectionWorkspace.canSubmit
    simp [List.length_eq_zero, and_assoc]
  · unfold InspectionEdit.canSubmit
    simp [List.length_eq_zero, and_assoc]

theorem severityScoreSpec_eq (s : String) :
    severityScoreSpec s =
      if InspectionWorkspace.score s = 0 then none else some (InspectionWorkspace.score s) := by
  unfold severityScoreSpec InspectionWorkspace.score
  by_cases h1 : s = "high" <;> by_cases h2 : s = "medium" <;> by_cases h3 : s = "low" <;>
    simp_all

theorem score_cases (s : String) :
    InspectionWorkspace.score s = 0 ∨ InspectionWorkspace.score s = 1 ∨
      InspectionWorkspace.score s = 2 ∨ InspectionWorkspace.score s = 3 := by
  unfold InspectionWorkspace.score
  split_ifs <;> simp

/-- Claim C5: `deriveRiskLevel` lowercases its two inputs and then computes
exactly the spec-worded derivation — map `'low'/'medium'/'high'` to `1/2/3`,
average only the valid scores, default to `'medium'` when none are valid,
and threshold the mean at `2.5` and `1.5`; in particular
`deriveRiskLevel 'high' 'low' = 'medium'` (mean `2.0`). -/
theorem deriveRiskLevel_correct :
    (∀ occurrence injury : String,
      InspectionWorkspace.deriveRiskLevel occurrence injury =
        deriveRiskLevelSpec (lowercase occurrence) (lowercase injury))
    ∧ InspectionWorkspace.deriveRiskLevel "high" "low" = "medium" := by
  constructor
  · intro occurrence injury
    unfold InspectionWorkspace.deriveRiskLevel deriveRiskLevelSpec
    rw [severityScoreSpec_eq, severityScoreSpec_eq]
    rcases score_cases (lowercase occurrence) with h1 | h1 | h1 | h1 <;>
      rcases score_cases (lowercase injury) with h2 | h2 | h2 | h2 <;>
        simp [h1, h2]
  · rfl

/-- Claim C6 (work-order close gate, spec-modelled backend operation): close
fails with `InvalidState` on an already-closed action; fails with
`PreconditionFailed` when a work order is required but its number is empty;
and otherwise succeeds, transitioning the status to `'closed'` and recording
the close metadata. -/
theorem close_work_order_gate (now : Int) (closedBy resolutionNotes : String)
    (action : CorrectiveAction) :
    (action.status = "closed" →
      ActionsService.close now closedBy resolutionNotes action =
        .error ActionsService.CloseError.InvalidState)
    ∧ (action.status ≠ "closed" → action.work_order_required = true →
        ActionsService.workOrderNumberEmpty action = true →
      ActionsService.close now closedBy resolutionNotes action =
        .error ActionsService.CloseError.PreconditionFailed)
    ∧ (action.status ≠ "closed" →
        (action.work_order_required && ActionsService.workOrderNumberEmpty action) = false →
      ActionsService.close now closedBy resolutionNotes action =
        .ok { action with
              status := "closed",
              closed_at := some now,
              closed_by := some closedBy,
              resolution_notes := some resolutionNotes }) := by
  refine ⟨fun hclosed => ?_, fun hopen hwo hempty => ?_, fun hopen hgate => ?_⟩
  · unfold ActionsService.close
    simp [hclosed]
  · unfold ActionsService.close
    simp [hopen, hwo, hempty]
  · unfold ActionsService.close
    simp [hopen, hgate]

/-- An open action that requires a work order but has no number yet. -/
def gatedAction : CorrectiveAction :=
  { id := 2, response_id := "resp-2", severity := "medium", status := "open",
    due_date := none, work_order_required := true, work_order_number := none,
    media_urls := [], closed_at := none, closed_by := none, resolution_notes := none }

/-- Witness for claim C6: closing `gatedAction` fails with
`PreconditionFailed`; once a work-order number is set, the same close
succeeds. -/
theorem close_work_order_gate_witness :
    ActionsService.close 5 "manager-1" "fixed" gatedAction =
      .error ActionsService.CloseError.PreconditionFailed
    ∧ ActionsService.close 5 "manager-1" "fixed"
        { gatedAction with work_order_number := some "WO-1234" } =
      .ok { gatedAction with
            work_order_number := some "WO-1234",
            status := "closed",
            closed_at := some 5,
            closed_by := some "manager-1",
            resolution_notes := some "fixed" } :=
  ⟨(close_work_order_gate 5 "manager-1" "fixed" gatedAction).2.1 (by decide) (by decide)
     (by decide),
   (close_work_order_gate 5 "manager-1" "fixed"
     { gatedAction with work_order_number := some "WO-1234" }).2.2 (by decide) (by decide)⟩

/-- Responses of the reject-dialog scenario: only `item-7` has a failing
response. -/
def reviewResponses : List InspectionResponse :=
  [{ id := "resp-7", template_item_id := "item-7", result := some "fail", media_urls := [] },
   { id := "resp-3", template_item_id := "item-3", result := some "pass", media_urls := [] }]

/-- Counterexample to claim C7: after the reviewer ticks the checkbox of the
non-failing `item-3`, `handleReject` dispatches a payload containing
`item-3`, which has no `fail` response — the subset property does not hold at
dispatch. -/
theorem handleReject_nonfailing_counterexample :
    ReviewQueue.handleReject "missing guard rail" ""
        (ReviewQueue.toggleItem true "item-3" (ReviewQueue.failingItemIds reviewResponses)) =
      some { reason := "missing guard rail", follow_up_instructions := none,
             item_ids := ["item-7", "item-3"] }
    ∧ "item-3" ∉ ReviewQueue.failingItemIds reviewResponses := by
  constructor
  · decide
  · decide

/-- Claim C7 as amended: a reject request is dispatched only with a non-empty
trimmed reason and a non-empty selection, and the dispatched ids are exactly
the selected ids — the dialog pre-selects the failing item ids but offers
every template item, so the dispatched set is not constrained to failing
items. -/
theorem handleReject_dispatch_conditions (reason followUp : String)
    (selectedItems : List String) (payload : ReviewQueue.RejectPayload)
    (hdispatch : ReviewQueue.handleReject reason followUp selectedItems = some payload) :
    ReviewQueue.jsTrim reason ≠ "" ∧ selectedItems ≠ [] ∧
      payload.item_ids = selectedItems ∧ payload.reason = ReviewQueue.jsTrim reason := by
  unfold ReviewQueue.handleReject at hdispatch
  by_cases hreason : ReviewQueue.jsTrim reason = ""
  · simp [hreason] at hdispatch
  · by_cases hsel : selectedItems.length = 0
    · simp [hreason, hsel] at hdispatch
    · simp only [hreason, hsel, if_false, Option.some.injEq] at hdispatch
      refine ⟨hreason, fun hnil => hsel (by simp [hnil]), ?_, ?_⟩
      · rw [← hdispatch]
      · rw [← hdispatch]

/-- Witness for the amended claim C7 at the counterexample's dispatch. -/
theorem handleReject_dispatch_conditions_witness :
    ReviewQueue.jsTrim "missing guard rail" ≠ "" ∧ (["item-7", "item-3"] : List String) ≠ [] ∧
      ({ reason := "missing guard rail", follow_up_instructions := none,
         item_ids := ["item-7", "item-3"] } : ReviewQueue.RejectPayload).item_ids
        = ["item-7", "item-3"]
      ∧ ({ reason := "missing guard rail", follow_up_instructions := none,
           item_ids := ["item-7", "item-3"] } : ReviewQueue.RejectPayload).reason
        = ReviewQueue.jsTrim "missing guard rail" :=
  handleReject_dispatch_conditions "missing guard rail" "" ["item-7", "item-3"]
    { reason := "missing guard rail", follow_up_instructions := none,
      item_ids := ["item-7", "item-3"] } (by decide)

/-- An already-closed corrective action whose due date has passed. -/
def closedOverdueAction : CorrectiveAction :=
  { id := 3, response_id := "resp-2", severity := "high", status := "closed",
    due_date := some 0, work_order_required := false, work_order_number := none,
    media_urls := [], closed_at := some 1, closed_by := some "manager-1",
    resolution_notes := some "done" }

/-- Counterexample to claim C9: both overdue selections flag a **closed**
action whose due date has passed — status is not consulted. -/
theorem overdue_ignores_status_counterexample :
    closedOverdueAction.status = "closed"
    ∧ ActionsSearch.withinDueWindow "overdue" 10 closedOverdueAction = true
    ∧ DashboardActions.filterPred "all" "overdue" 10 closedOverdueAction = true := by
  refine ⟨rfl, ?_, ?_⟩ <;> decide

/-- Claim C9 as amended: both overdue selections flag an action iff it has a
due date strictly in the past — irrespective of its status; an action with no
due date is never flagged. -/
theorem overdue_selection_iff (now : Int) (action : CorrectiveAction) :
    (ActionsSearch.withinDueWindow "overdue" now action = true ↔
      ∃ due, action.due_date = some due ∧ due < now)
    ∧ (DashboardActions.filterPred "all" "overdue" now action = true ↔
      ∃ due, action.due_date = some due ∧ due < now) := by
  constructor
  · unfold ActionsSearch.withinDueWindow
    cases h : action.due_date <;> simp [h]
  · unfold DashboardActions.filterPred
    cases h : action.due_date <;> simp [h]
